import Mathlib

/-!
Verification of the AudioMoth USB-HID configuration tool.

Shallow embedding of `audiomoth/audiomoth.py` and `audiomoth/utils.py`:

* the device locator `get_audiomoth_device` (HID enumeration is passed in
  as an explicit list of descriptors);
* the parameter validator `_validate_parameter`;
* the 18-byte wire codec given by `struct.pack`/`struct.unpack` with the
  format string `<BLBBBBLBHH` (`encode` / `decode` below; `struct` range
  checks its arguments, hence `encode` returns an `Option`);
* the read path of `get_config` applied to a device response
  (`get_config_resp`);
* the validate/merge/transmit pipeline of `set_config`
  (`set_config_merge` / `set_config_run`; the transport is represented by
  the list of configuration writes the operation performs).

Python integers are modelled as `Int`; wire bytes as `Nat` (values below
256); Python strings as `String` or `List Char`.
-/

/-- Python values passed to the validator: either an `int`, or some value of
another type (the code guards with `isinstance(value, int)`). -/
inductive PyValue where
  | int (v : Int)
  | nonInt
deriving DecidableEq

/-- The two kinds of `ValueError` raised by `_validate_parameter`, told apart
by their distinct messages: the `isinstance` failure and the range failures. -/
inductive ValErr where
  | typeMismatch
  | range
deriving DecidableEq

/-- Errors surfaced by the tool: the two `RuntimeError`s of
`get_audiomoth_device`, the `RuntimeError` of `get_config` on a wrong
response tag, a `struct.error` from `struct.pack`/`struct.unpack`, and a
re-raised `ValueError` from validation. -/
inductive MothErr where
  | notFoundAny
  | notFoundSerial
  | protocol
  | structError
  | validation (e : ValErr)
deriving DecidableEq

/-- Discriminates the validation errors among `MothErr`. -/
def MothErr.isValidation : MothErr → Bool
  | .validation _ => true
  | _ => false

/-- `HID_CONFIGURATION_MESSAGE = bytes([0x01])` from `utils.py`. -/
def HID_CONFIGURATION_MESSAGE : List Nat := [0x01]

/-- `HID_RESTORE_MESSAGE = bytes([0x04])` from `utils.py`. -/
def HID_RESTORE_MESSAGE : List Nat := [0x04]

/-- `HID_READ_MESSAGE = bytes([0x05])` from `utils.py`. -/
def HID_READ_MESSAGE : List Nat := [0x05]

/-- `HID_PERSIST_MESSAGE = bytes([0x06])` from `utils.py`. -/
def HID_PERSIST_MESSAGE : List Nat := [0x06]

/-- The dataclass `AudioMothConfig`, defaults included. -/
structure AudioMothConfig where
  time : Int := 0
  gain : Int := 2
  clock_divider : Int := 4
  acquisition_cycles : Int := 16
  oversamplerate : Int := 1
  samplerate : Int := 384000
  samplerate_divider : Int := 1
  lower_filter_freq : Int := 0
  higher_filter_freq : Int := 0
deriving DecidableEq

/-- The literal `[0, 1, 2, 3, 4]` from the gain check in `_validate_parameter`. -/
def gainValues : List Int := [0, 1, 2, 3, 4]

/-- The literal samplerate list from the samplerate check in
`_validate_parameter`. -/
def samplerateValues : List Int :=
  [8000, 16000, 32000, 48000, 96000, 192000, 250000, 384000]

/-- `_validate_parameter(parameter, value, sr)` from `utils.py`.  The Python
`match` dispatches on the parameter name; any name other than the four
checked ones is accepted unconditionally.  `int(sr / 2)` truncates toward
zero, which for integer `sr` (of magnitude below 2^53, exact in a float)
is `Int.tdiv`. -/
def _validate_parameter (parameter : String) (value : PyValue) (sr : Int) :
    Option ValErr :=
  match value with
  | .nonInt => some .typeMismatch
  | .int v =>
    if parameter = "gain" then
      if v ∉ gainValues then some .range else none
    else if parameter = "samplerate" then
      if v ∉ samplerateValues then some .range else none
    else if parameter = "lower_filter_freq" ∨ parameter = "higher_filter_freq" then
      if ¬ v % 100 = 0 ∨ v > Int.tdiv sr 2 then some .range else none
    else none

/-- A USB HID device descriptor as returned by `hid.enumerate()`, restricted
to the keys the code reads. -/
structure DeviceDescriptor where
  vendor_id : Nat
  product_id : Nat
  product_string : List Char
  serial_number : List Char
deriving DecidableEq

/-- The marketing-name filter string: `"AudioMoth" in device["product_string"]`. -/
def audioMothName : List Char := "AudioMoth".toList

/-- `get_audiomoth_device` from `audiomoth.py`, with the result of
`hid.enumerate()` passed in explicitly.  Note the source computes the
serial-matching descriptor with `next(...)`, raises if there is none, and
then executes `return devices[0]`. -/
def get_audiomoth_device (enumerated : List DeviceDescriptor)
    (serial_number : Option (List Char)) : Except MothErr DeviceDescriptor :=
  let devices := enumerated.filter (fun d => decide (audioMothName <:+: d.product_string))
  match devices with
  | [] => Except.error .notFoundAny
  | d0 :: _ =>
    match serial_number with
    | none => Except.ok d0
    | some s =>
      match devices.find? (fun d => d.serial_number == s) with
      | none => Except.error .notFoundSerial
      | some _ => Except.ok d0

/-- `struct.pack` of one `B` (unsigned 8-bit) field: range-checked. -/
def packB (v : Int) : Option (List Nat) :=
  if 0 ≤ v ∧ v ≤ 255 then some [v.toNat] else none

/-- `struct.pack` of one `<H` (unsigned little-endian 16-bit) field:
range-checked. -/
def packH (v : Int) : Option (List Nat) :=
  if 0 ≤ v ∧ v ≤ 65535 then some [v.toNat % 256, v.toNat / 256] else none

/-- `struct.pack` of one `<L` (unsigned little-endian 32-bit) field:
range-checked. -/
def packL (v : Int) : Option (List Nat) :=
  if 0 ≤ v ∧ v ≤ 4294967295 then
    some [v.toNat % 256, v.toNat / 256 % 256, v.toNat / 65536 % 256,
      v.toNat / 16777216 % 256]
  else none

/-- `struct.pack("<BLBBBBLBHH", tag, time, gain, clock_divider,
acquisition_cycles, oversamplerate, samplerate, samplerate_divider,
lower_filter_freq, higher_filter_freq)`: the configuration codec's encoder.
`struct.error` on an out-of-range field is modelled as `none`. -/
def encode (tag : Int) (c : AudioMothConfig) : Option (List Nat) :=
  (packB tag).bind fun w0 =>
  (packL c.time).bind fun w1 =>
  (packB c.gain).bind fun w2 =>
  (packB c.clock_divider).bind fun w3 =>
  (packB c.acquisition_cycles).bind fun w4 =>
  (packB c.oversamplerate).bind fun w5 =>
  (packL c.samplerate).bind fun w6 =>
  (packB c.samplerate_divider).bind fun w7 =>
  (packH c.lower_filter_freq).bind fun w8 =>
  (packH c.higher_filter_freq).bind fun w9 =>
  some (w0 ++ w1 ++ w2 ++ w3 ++ w4 ++ w5 ++ w6 ++ w7 ++ w8 ++ w9)

/-- `struct.unpack("<BLBBBBLBHH", data)`: the configuration codec's decoder.
`struct.error` on a buffer whose length is not 18 is modelled as `none`. -/
def decode (b : List Nat) : Option (Int × AudioMothConfig) :=
  match b with
  | [t, t0, t1, t2, t3, g, cd, ac, os, s0, s1, s2, s3, sd, l0, l1, f0, f1] =>
    some ((t : Int),
      { time := ((t0 + 256 * t1 + 65536 * t2 + 16777216 * t3 : Nat) : Int)
        gain := (g : Int)
        clock_divider := (cd : Int)
        acquisition_cycles := (ac : Int)
        oversamplerate := (os : Int)
        samplerate := ((s0 + 256 * s1 + 65536 * s2 + 16777216 * s3 : Nat) : Int)
        samplerate_divider := (sd : Int)
        lower_filter_freq := ((l0 + 256 * l1 : Nat) : Int)
        higher_filter_freq := ((f0 + 256 * f1 : Nat) : Int) })
  | _ => none

/-- A `(tag, record)` pair whose fields all lie within the wire widths of the
format `<BLBBBBLBHH` (`B` unsigned 8-bit, `L` unsigned 32-bit, `H` unsigned
16-bit). -/
def InWidth (tag : Int) (c : AudioMothConfig) : Prop :=
  0 ≤ tag ∧ tag ≤ 255
  ∧ 0 ≤ c.time ∧ c.time ≤ 4294967295
  ∧ 0 ≤ c.gain ∧ c.gain ≤ 255
  ∧ 0 ≤ c.clock_divider ∧ c.clock_divider ≤ 255
  ∧ 0 ≤ c.acquisition_cycles ∧ c.acquisition_cycles ≤ 255
  ∧ 0 ≤ c.oversamplerate ∧ c.oversamplerate ≤ 255
  ∧ 0 ≤ c.samplerate ∧ c.samplerate ≤ 4294967295
  ∧ 0 ≤ c.samplerate_divider ∧ c.samplerate_divider ≤ 255
  ∧ 0 ≤ c.lower_filter_freq ∧ c.lower_filter_freq ≤ 65535
  ∧ 0 ≤ c.higher_filter_freq ∧ c.higher_filter_freq ≤ 65535

instance (tag : Int) (c : AudioMothConfig) : Decidable (InWidth tag c) := by
  unfold InWidth; infer_instance

/-- The response-processing tail of `get_config`: unpack the 18 bytes read
from the device, compare the returned tag with `HID_READ_MESSAGE[0]`, and
build the `AudioMothConfig` from the remaining fields. -/
def get_config_resp (b : List Nat) : Except MothErr AudioMothConfig :=
  match decode b with
  | none => Except.error .structError
  | some (tag, cfg) =>
    if tag ≠ ((HID_READ_MESSAGE.headD 0 : Nat) : Int) then Except.error .protocol
    else Except.ok cfg

/-- The keyword arguments of `set_config`, in the order of its signature
(which is the iteration order of `locals()` in its merge loop).  Every
parameter defaults to `None`; there is no `time` parameter. -/
structure SetOverrides where
  gain : Option Int := none
  clock_divider : Option Int := none
  acquisition_cycles : Option Int := none
  oversamplerate : Option Int := none
  samplerate : Option Int := none
  samplerate_divider : Option Int := none
  lower_filter_freq : Option Int := none
  higher_filter_freq : Option Int := none
deriving DecidableEq

/-- The effective sample rate of `set_config`'s merge loop:
`sr = samplerate if samplerate is not None else old_cfg.samplerate`.
(`samplerate` is the function parameter, and `old_cfg.samplerate` is only
reassigned when that parameter is not `None`, so this value is the same on
every loop iteration.) -/
def effSr (old : AudioMothConfig) (ov : SetOverrides) : Int :=
  ov.samplerate.getD old.samplerate

/-- One iteration of `set_config`'s merge loop: the parameter name as seen by
`_validate_parameter`, the override value it receives, and the `setattr`
the iteration performs. -/
structure MergeStep where
  name : String
  get : SetOverrides → Option Int
  upd : AudioMothConfig → Int → AudioMothConfig

/-- The iterations of `set_config`'s merge loop, in `locals()` order (the
signature order of the keyword parameters, with `serial_number`,
`audio_moth` and `old_cfg` skipped). -/
def mergeSteps : List MergeStep :=
  [⟨"gain", fun ov => ov.gain, fun c v => { c with gain := v }⟩,
   ⟨"clock_divider", fun ov => ov.clock_divider, fun c v => { c with clock_divider := v }⟩,
   ⟨"acquisition_cycles", fun ov => ov.acquisition_cycles, fun c v => { c with acquisition_cycles := v }⟩,
   ⟨"oversamplerate", fun ov => ov.oversamplerate, fun c v => { c with oversamplerate := v }⟩,
   ⟨"samplerate", fun ov => ov.samplerate, fun c v => { c with samplerate := v }⟩,
   ⟨"samplerate_divider", fun ov => ov.samplerate_divider, fun c v => { c with samplerate_divider := v }⟩,
   ⟨"lower_filter_freq", fun ov => ov.lower_filter_freq, fun c v => { c with lower_filter_freq := v }⟩,
   ⟨"higher_filter_freq", fun ov => ov.higher_filter_freq, fun c v => { c with higher_filter_freq := v }⟩]

/-- `set_config`'s merge loop: skip `None` overrides, validate each provided
one against the effective sample rate, re-raise a `ValueError` immediately
on failure, and otherwise `setattr` the value onto the record. -/
def runSteps (sr : Int) (ov : SetOverrides) :
    List MergeStep → AudioMothConfig → Except ValErr AudioMothConfig
  | [], c => Except.ok c
  | s :: rest, c =>
    match s.get ov with
    | none => runSteps sr ov rest c
    | some v =>
      match _validate_parameter s.name (PyValue.int v) sr with
      | some e => Except.error e
      | none => runSteps sr ov rest (s.upd c v)

/-- The merge phase of `set_config`, acting on the record read from the
device. -/
def set_config_merge (old : AudioMothConfig) (ov : SetOverrides) :
    Except ValErr AudioMothConfig :=
  runSteps (effSr old ov) ov mergeSteps old

/-- The same loop with validation stripped: what the merged record is when
every provided override passes. -/
def applySteps (ov : SetOverrides) :
    List MergeStep → AudioMothConfig → AudioMothConfig
  | [], c => c
  | s :: rest, c =>
    applySteps ov rest
      (match s.get ov with
       | none => c
       | some v => s.upd c v)

/-- The record `set_config` transmits when validation passes: overridden
fields replaced, all other fields (in particular `time`) carried over. -/
def mergedRecord (old : AudioMothConfig) (ov : SetOverrides) : AudioMothConfig :=
  { time := old.time
    gain := ov.gain.getD old.gain
    clock_divider := ov.clock_divider.getD old.clock_divider
    acquisition_cycles := ov.acquisition_cycles.getD old.acquisition_cycles
    oversamplerate := ov.oversamplerate.getD old.oversamplerate
    samplerate := ov.samplerate.getD old.samplerate
    samplerate_divider := ov.samplerate_divider.getD old.samplerate_divider
    lower_filter_freq := ov.lower_filter_freq.getD old.lower_filter_freq
    higher_filter_freq := ov.higher_filter_freq.getD old.higher_filter_freq }

/-- One provided override passes `_validate_parameter` (a missing override
imposes nothing). -/
def overrideOk (n : String) (vo : Option Int) (sr : Int) : Prop :=
  match vo with
  | none => True
  | some v => _validate_parameter n (PyValue.int v) sr = none

instance (n : String) (vo : Option Int) (sr : Int) : Decidable (overrideOk n vo sr) :=
  match vo with
  | none => isTrue True.intro
  | some v =>
    decidable_of_iff (_validate_parameter n (PyValue.int v) sr = none) Iff.rfl

/-- Every provided override passes `_validate_parameter` against the given
sample rate. -/
def ValidAll (sr : Int) (ov : SetOverrides) : Prop :=
  overrideOk ("gain") ov.gain sr
  ∧ overrideOk ("clock_divider") ov.clock_divider sr
  ∧ overrideOk ("acquisition_cycles") ov.acquisition_cycles sr
  ∧ overrideOk ("oversamplerate") ov.oversamplerate sr
  ∧ overrideOk ("samplerate") ov.samplerate sr
  ∧ overrideOk ("samplerate_divider") ov.samplerate_divider sr
  ∧ overrideOk ("lower_filter_freq") ov.lower_filter_freq sr
  ∧ overrideOk ("higher_filter_freq") ov.higher_filter_freq sr

instance (sr : Int) (ov : SetOverrides) : Decidable (ValidAll sr ov) := by
  unfold ValidAll; infer_instance

/-- `set_config` after the device's current configuration has been read:
merge (raising a `ValueError` aborts the operation), then
`struct.pack` the merged record behind the `HID_CONFIGURATION_MESSAGE` tag
(a `struct.error` also aborts), then perform the single configuration
write.  The second component lists the configuration writes performed on
the transport. -/
def set_config_run (old : AudioMothConfig) (ov : SetOverrides) :
    Except MothErr AudioMothConfig × List (List Nat) :=
  match set_config_merge old ov with
  | Except.error e => (Except.error (MothErr.validation e), [])
  | Except.ok m =>
    match encode ((HID_CONFIGURATION_MESSAGE.headD 0 : Nat) : Int) m with
    | none => (Except.error MothErr.structError, [])
    | some data => (Except.ok m, [data])

/-- The option names the CLI `set` subcommand accepts
(`set_conf_parser.add_argument` calls in `utils._parse_args`). -/
def set_cli_flags : List String :=
  ["gain", "clock_divider", "acquisition_cycles", "oversamplerate",
   "samplerate", "samplerate_divider", "lower_filter_freq", "higher_filter_freq"]

/-- `AudioMothConfig()` with all dataclass defaults. -/
def defaultConfig : AudioMothConfig := {}

/-- An enumeration fixture: an AudioMoth with serial `A`. -/
def devA : DeviceDescriptor :=
  { vendor_id := 4292
    product_id := 2
    product_string := "AudioMoth".toList
    serial_number := "A".toList }

/-- An enumeration fixture: an AudioMoth with serial `B`. -/
def devB : DeviceDescriptor :=
  { vendor_id := 4292
    product_id := 2
    product_string := "AudioMoth".toList
    serial_number := "B".toList }

/-- The overrides of the cross-field scenario: `samplerate=8000` together
with `higher_filter_freq=4500`. -/
def ovC3 : SetOverrides := { samplerate := some 8000, higher_filter_freq := some 4500 }

/-- A single override `gain=7` (out of range). -/
def ovBadGain : SetOverrides := { gain := some 7 }

/-- A single override `gain=3`. -/
def ovG3 : SetOverrides := { gain := some 3 }

/-- A single override `clock_divider=256`, which exceeds the unsigned 8-bit
wire width but carries no validation constraint. -/
def ovCd256 : SetOverrides := { clock_divider := some 256 }

/-- All eight `set_config` overrides provided at once, with values that pass
validation. -/
def ovAll : SetOverrides :=
  { gain := some 3
    clock_divider := some 2
    acquisition_cycles := some 8
    oversamplerate := some 2
    samplerate := some 48000
    samplerate_divider := some 2
    lower_filter_freq := some 100
    higher_filter_freq := some 200 }

/-- Python's `int(sr / 2)` (truncation) agrees with Euclidean division for a
nonnegative sample rate. -/
lemma tdiv_two_of_nonneg (sr : Int) (h : 0 ≤ sr) : Int.tdiv sr 2 = sr / 2 := by
  obtain ⟨n, rfl⟩ := Int.eq_ofNat_of_zero_le h
  rfl

/-- Claim C4: `_validate_parameter` is a total function, and for every field
name, value and effective sample rate `sr` with `0 ≤ sr < 2^32` it rejects
exactly as follows: a non-integer value with the type-mismatch
`ValueError`; `gain` outside `[0, 1, 2, 3, 4]`, `samplerate` outside the
eight supported rates, and a band-pass filter frequency that is not a
multiple of 100 or exceeds `sr / 2` (integer division), each with the range
`ValueError`; every integer value for any other field name — in particular
`clock_divider`, `acquisition_cycles`, `oversamplerate`,
`samplerate_divider` and `time` — is accepted. -/
theorem validate_characterization (p : String) (v : PyValue) (sr : Int)
    (h0 : 0 ≤ sr) (h1 : sr < 4294967296) :
    (_validate_parameter p v sr = some ValErr.typeMismatch ↔ v = PyValue.nonInt)
    ∧ (∀ n : Int, v = PyValue.int n →
        (_validate_parameter p v sr = some ValErr.range ↔
          ((p = "gain" ∧ n ∉ gainValues)
            ∨ (p = "samplerate" ∧ n ∉ samplerateValues)
            ∨ ((p = "lower_filter_freq" ∨ p = "higher_filter_freq")
                ∧ (¬ n % 100 = 0 ∨ n > sr / 2)))))
    ∧ (∀ n : Int, v = PyValue.int n →
        (p = "clock_divider" ∨ p = "acquisition_cycles" ∨ p = "oversamplerate"
          ∨ p = "samplerate_divider" ∨ p = "time") →
        _validate_parameter p v sr = none) := by
  have hdiv : Int.tdiv sr 2 = sr / 2 := tdiv_two_of_nonneg sr h0
  cases v with
  | nonInt =>
    refine ⟨by simp [_validate_parameter], ?_, ?_⟩ <;> intro n hn <;> cases hn
  | int m =>
    refine ⟨?_, ?_, ?_⟩
    · simp only [_validate_parameter]
      split_ifs <;> simp
    · intro n hn
      obtain rfl : m = n := by cases hn; rfl
      simp only [_validate_parameter, hdiv]
      split_ifs with hg hmem hs hmem2 hf hcond <;> simp_all
    · intro n hn hp
      obtain rfl : m = n := by cases hn; rfl
      rcases hp with h | h | h | h | h <;> subst h <;> rfl

/-- Witness for claim C4: `higher_filter_freq = 4500` against the effective
sample rate 8000 draws the range `ValueError` (4500 is a multiple of 100
but exceeds 8000 / 2). -/
theorem validate_characterization_app :
    _validate_parameter ("higher_filter_freq") (PyValue.int 4500) 8000
      = some ValErr.range :=
  ((validate_characterization ("higher_filter_freq") (PyValue.int 4500) 8000
    (by decide) (by decide)).2.1 4500 rfl).mpr (by decide)

lemma packB_eq (v : Int) (h : 0 ≤ v ∧ v ≤ 255) : packB v = some [v.toNat] := by
  unfold packB; rw [if_pos h]

lemma packH_eq (v : Int) (h : 0 ≤ v ∧ v ≤ 65535) :
    packH v = some [v.toNat % 256, v.toNat / 256] := by
  unfold packH; rw [if_pos h]

lemma packL_eq (v : Int) (h : 0 ≤ v ∧ v ≤ 4294967295) :
    packL v = some [v.toNat % 256, v.toNat / 256 % 256, v.toNat / 65536 % 256,
      v.toNat / 16777216 % 256] := by
  unfold packL; rw [if_pos h]

lemma packB_natCast (n : Nat) (h : n ≤ 255) : packB (n : Int) = some [n] := by
  rw [packB_eq _ ⟨by positivity, by exact_mod_cast h⟩]
  simp

lemma packH_natCast (n : Nat) (h : n ≤ 65535) :
    packH (n : Int) = some [n % 256, n / 256] := by
  rw [packH_eq _ ⟨by positivity, by exact_mod_cast h⟩]
  simp

lemma packL_natCast (n : Nat) (h : n ≤ 4294967295) :
    packL (n : Int) = some [n % 256, n / 256 % 256, n / 65536 % 256,
      n / 16777216 % 256] := by
  rw [packL_eq _ ⟨by positivity, by exact_mod_cast h⟩]
  simp

/-- On a within-widths input, `encode` succeeds, with these 18 bytes. -/
lemma encode_eq_of_inWidth (tag : Int) (c : AudioMothConfig) (h : InWidth tag c) :
    encode tag c = some
      [tag.toNat,
       c.time.toNat % 256, c.time.toNat / 256 % 256, c.time.toNat / 65536 % 256,
       c.time.toNat / 16777216 % 256,
       c.gain.toNat, c.clock_divider.toNat, c.acquisition_cycles.toNat,
       c.oversamplerate.toNat,
       c.samplerate.toNat % 256, c.samplerate.toNat / 256 % 256,
       c.samplerate.toNat / 65536 % 256, c.samplerate.toNat / 16777216 % 256,
       c.samplerate_divider.toNat,
       c.lower_filter_freq.toNat % 256, c.lower_filter_freq.toNat / 256,
       c.higher_filter_freq.toNat % 256, c.higher_filter_freq.toNat / 256] := by
  unfold InWidth at h
  obtain ⟨w1, w2, w3, w4, w5, w6, w7, w8, w9, w10, w11, w12, w13, w14, w15,
    w16, w17, w18, w19, w20⟩ := h
  simp only [encode, packB_eq tag ⟨w1, w2⟩, packL_eq c.time ⟨w3, w4⟩,
    packB_eq c.gain ⟨w5, w6⟩, packB_eq c.clock_divider ⟨w7, w8⟩,
    packB_eq c.acquisition_cycles ⟨w9, w10⟩, packB_eq c.oversamplerate ⟨w11, w12⟩,
    packL_eq c.samplerate ⟨w13, w14⟩, packB_eq c.samplerate_divider ⟨w15, w16⟩,
    packH_eq c.lower_filter_freq ⟨w17, w18⟩, packH_eq c.higher_filter_freq ⟨w19, w20⟩,
    Option.some_bind, List.cons_append, List.nil_append]

/-- Claim C5: the codec is a bijection between 18-byte buffers and
`(tag, record)` pairs within the wire widths: encoding such a pair succeeds
and decoding the resulting buffer gives the pair back, and decoding any
18-byte buffer succeeds and re-encoding the result gives the buffer back. -/
theorem codec_roundtrip_bijection :
    (∀ (tag : Int) (c : AudioMothConfig), InWidth tag c →
      ∃ b, encode tag c = some b ∧ decode b = some (tag, c))
    ∧ (∀ b0 b1 b2 b3 b4 b5 b6 b7 b8 b9 b10 b11 b12 b13 b14 b15 b16 b17 : Nat,
        (b0 < 256 ∧ b1 < 256 ∧ b2 < 256 ∧ b3 < 256 ∧ b4 < 256 ∧ b5 < 256
          ∧ b6 < 256 ∧ b7 < 256 ∧ b8 < 256 ∧ b9 < 256 ∧ b10 < 256 ∧ b11 < 256
          ∧ b12 < 256 ∧ b13 < 256 ∧ b14 < 256 ∧ b15 < 256 ∧ b16 < 256 ∧ b17 < 256) →
        ∃ (tag : Int) (c : AudioMothConfig),
          decode [b0, b1, b2, b3, b4, b5, b6, b7, b8, b9, b10, b11, b12, b13,
              b14, b15, b16, b17] = some (tag, c)
          ∧ encode tag c = some [b0, b1, b2, b3, b4, b5, b6, b7, b8, b9, b10,
              b11, b12, b13, b14, b15, b16, b17]) := by
  constructor
  · rintro tag ⟨t, g, cd, ac, os, s, sd, lf, hf⟩ hw
    have henc := encode_eq_of_inWidth tag ⟨t, g, cd, ac, os, s, sd, lf, hf⟩ hw
    dsimp only at henc
    unfold InWidth at hw
    dsimp only at hw
    obtain ⟨w1, w2, w3, w4, w5, w6, w7, w8, w9, w10, w11, w12, w13, w14, w15,
      w16, w17, w18, w19, w20⟩ := hw
    refine ⟨_, henc, ?_⟩
    simp only [decode, Option.some.injEq, Prod.mk.injEq, AudioMothConfig.mk.injEq]
    omega
  · intro b0 b1 b2 b3 b4 b5 b6 b7 b8 b9 b10 b11 b12 b13 b14 b15 b16 b17 hk
    obtain ⟨k0, k1, k2, k3, k4, k5, k6, k7, k8, k9, k10, k11, k12, k13, k14,
      k15, k16, k17⟩ := hk
    refine ⟨_, _, rfl, ?_⟩
    dsimp only
    have hT : b1 + 256 * b2 + 65536 * b3 + 16777216 * b4 ≤ 4294967295 := by omega
    have hS : b9 + 256 * b10 + 65536 * b11 + 16777216 * b12 ≤ 4294967295 := by omega
    have hL : b14 + 256 * b15 ≤ 65535 := by omega
    have hH : b16 + 256 * b17 ≤ 65535 := by omega
    simp only [encode, packB_natCast b0 (by omega), packL_natCast _ hT,
      packB_natCast b5 (by omega), packB_natCast b6 (by omega),
      packB_natCast b7 (by omega), packB_natCast b8 (by omega),
      packL_natCast _ hS, packB_natCast b13 (by omega), packH_natCast _ hL,
      packH_natCast _ hH, Option.some_bind, List.cons_append, List.nil_append,
      Option.some.injEq, List.cons.injEq, and_true, true_and]
    omega

/-- Witness for claim C5: both round-trip directions at concrete inputs — the
default record behind tag 1, and a concrete 18-byte buffer. -/
theorem codec_roundtrip_bijection_app :
    (∃ b, encode 1 defaultConfig = some b ∧ decode b = some (1, defaultConfig))
    ∧ (∃ (tag : Int) (c : AudioMothConfig),
        decode [5, 1, 0, 0, 0, 2, 4, 16, 1, 0, 220, 5, 0, 1, 0, 0, 0, 0]
          = some (tag, c)
        ∧ encode tag c
          = some [5, 1, 0, 0, 0, 2, 4, 16, 1, 0, 220, 5, 0, 1, 0, 0, 0, 0]) :=
  ⟨codec_roundtrip_bijection.1 1 defaultConfig (by decide),
   codec_roundtrip_bijection.2 5 1 0 0 0 2 4 16 1 0 220 5 0 1 0 0 0 0 (by decide)⟩

/-- Counterexample for claim C6: `encode` is not total over any record value —
a record with `clock_divider = 256` (one above the unsigned 8-bit width)
makes `struct.pack` fail instead of producing an 18-byte buffer. -/
theorem encode_not_total :
    encode 1 { defaultConfig with clock_divider := 256 } = none := rfl

/-- Claim C6 (amended): `encode` is deterministic and, for every tag and every
record whose fields lie within their declared wire widths, returns an
18-byte buffer; on a record with a field outside its width it instead fails
with `struct.error`. -/
theorem encode_total_on_widths (tag : Int) (c : AudioMothConfig)
    (h : InWidth tag c) : ∃ b, encode tag c = some b ∧ b.length = 18 :=
  ⟨_, encode_eq_of_inWidth tag c h, rfl⟩

/-- Witness for claim C6: the default record behind tag 1 encodes to an
18-byte buffer. -/
theorem encode_total_on_widths_app :
    ∃ b, encode 1 defaultConfig = some b ∧ b.length = 18 :=
  encode_total_on_widths 1 defaultConfig (by decide)

@[simp] lemma overrideOk_none_iff (n : String) (sr : Int) :
    overrideOk n none sr ↔ True := Iff.rfl

@[simp] lemma overrideOk_some_iff (n : String) (v : Int) (sr : Int) :
    overrideOk n (some v) sr ↔ _validate_parameter n (PyValue.int v) sr = none :=
  Iff.rfl

/-- The merge loop succeeds exactly when every provided override in the step
list passes validation. -/
lemma runSteps_ok_iff (sr : Int) (ov : SetOverrides) (l : List MergeStep) :
    ∀ c : AudioMothConfig,
      (∃ m, runSteps sr ov l c = Except.ok m) ↔
        ∀ s ∈ l, overrideOk s.name (s.get ov) sr := by
  induction l with
  | nil => intro c; simp [runSteps]
  | cons s rest ih =>
    intro c
    rw [List.forall_mem_cons]
    cases hg : s.get ov with
    | none =>
      simp only [runSteps, hg, overrideOk_none_iff, true_and]
      exact ih c
    | some v =>
      simp only [runSteps, hg, overrideOk_some_iff]
      cases hv : _validate_parameter s.name (PyValue.int v) sr with
      | none => simpa [hv] using ih (s.upd c v)
      | some e => simp [hv]

/-- When the merge loop succeeds, its result is the pure override
application. -/
lemma runSteps_ok_eq (sr : Int) (ov : SetOverrides) (l : List MergeStep) :
    ∀ c m, runSteps sr ov l c = Except.ok m → m = applySteps ov l c := by
  induction l with
  | nil =>
    intro c m h
    simp only [runSteps, Except.ok.injEq] at h
    simp [applySteps, h]
  | cons s rest ih =>
    intro c m h
    cases hg : s.get ov with
    | none =>
      simp only [runSteps, hg] at h
      simp only [applySteps, hg]
      exact ih _ _ h
    | some v =>
      simp only [runSteps, hg] at h
      cases hv : _validate_parameter s.name (PyValue.int v) sr with
      | some e =>
        simp only [hv] at h
        exact Except.noConfusion h
      | none =>
        simp only [hv] at h
        simp only [applySteps, hg]
        exact ih _ _ h

/-- Applying the eight merge steps yields exactly the overridden record. -/
lemma applySteps_mergeSteps (ov : SetOverrides) (old : AudioMothConfig) :
    applySteps ov mergeSteps old = mergedRecord old ov := by
  obtain ⟨g, cd, ac, os, s, sd, lf, hf⟩ := ov
  cases g <;> cases cd <;> cases ac <;> cases os <;> cases s <;> cases sd <;>
    cases lf <;> cases hf <;> rfl

/-- `set_config`'s merge succeeds exactly when every provided override passes
validation against the effective sample rate. -/
lemma merge_ok_iff (old : AudioMothConfig) (ov : SetOverrides) :
    (∃ m, set_config_merge old ov = Except.ok m) ↔ ValidAll (effSr old ov) ov := by
  rw [set_config_merge, runSteps_ok_iff]
  simp [mergeSteps, ValidAll, List.forall_mem_cons, and_assoc]

/-- When `set_config`'s merge succeeds, the result is the overridden record. -/
lemma merge_ok_val (old : AudioMothConfig) (ov : SetOverrides)
    (m : AudioMothConfig) (h : set_config_merge old ov = Except.ok m) :
    m = mergedRecord old ov := by
  have hx := runSteps_ok_eq (effSr old ov) ov mergeSteps old m h
  rw [applySteps_mergeSteps] at hx
  exact hx

/-- Claim C2: when any provided override fails validation, `set_config` raises
the (re-wrapped) `ValueError` and performs no configuration write at all —
the device's volatile state is untouched. -/
theorem set_config_all_or_nothing (old : AudioMothConfig) (ov : SetOverrides)
    (h : ¬ ValidAll (effSr old ov) ov) :
    (∃ e, (set_config_run old ov).1 = Except.error (MothErr.validation e))
    ∧ (set_config_run old ov).2 = [] := by
  have hne : ¬ ∃ m, set_config_merge old ov = Except.ok m :=
    fun hex => h ((merge_ok_iff old ov).mp hex)
  cases hm : set_config_merge old ov with
  | ok m => exact absurd ⟨m, hm⟩ hne
  | error e =>
    refine ⟨⟨e, ?_⟩, ?_⟩ <;> simp [set_config_run, hm]

/-- Witness for claim C2: the single override `gain = 7` fails validation;
`set_config` errors and writes nothing. -/
theorem set_config_all_or_nothing_app :
    (∃ e, (set_config_run defaultConfig ovBadGain).1
        = Except.error (MothErr.validation e))
    ∧ (set_config_run defaultConfig ovBadGain).2 = [] :=
  set_config_all_or_nothing defaultConfig ovBadGain (by decide)

/-- Claim C3: every override is validated against the effective sample rate —
the overriding `samplerate` when one is given in the same call, the
device's current `samplerate` otherwise; in particular
`samplerate = 8000` together with `higher_filter_freq = 4500` is rejected
(with nothing written) whatever the device's prior sample rate was. -/
theorem effective_samplerate_validation :
    (∀ (old : AudioMothConfig) (ov : SetOverrides),
      (∃ m, set_config_merge old ov = Except.ok m) ↔ ValidAll (effSr old ov) ov)
    ∧ ∀ old : AudioMothConfig,
        set_config_run old ovC3
          = (Except.error (MothErr.validation ValErr.range), []) :=
  ⟨merge_ok_iff, fun _ => rfl⟩

/-- Witness for claim C3: the cross-field scenario on the default record. -/
theorem effective_samplerate_validation_app :
    set_config_run defaultConfig ovC3
      = (Except.error (MothErr.validation ValErr.range), []) :=
  effective_samplerate_validation.2 defaultConfig

lemma packB_some (v : Int) (w : List Nat) (h : packB v = some w) :
    w = [v.toNat] := by
  unfold packB at h
  split_ifs at h
  exact (Option.some.injEq _ _ ▸ h).symm

lemma packH_some (v : Int) (w : List Nat) (h : packH v = some w) :
    w = [v.toNat % 256, v.toNat / 256] := by
  unfold packH at h
  split_ifs at h
  exact (Option.some.injEq _ _ ▸ h).symm

lemma packL_some (v : Int) (w : List Nat) (h : packL v = some w) :
    w = [v.toNat % 256, v.toNat / 256 % 256, v.toNat / 65536 % 256,
      v.toNat / 16777216 % 256] := by
  unfold packL at h
  split_ifs at h
  exact (Option.some.injEq _ _ ▸ h).symm

/-- Whenever `encode` succeeds its buffer has 18 bytes and starts with the
tag. -/
lemma encode_some_shape (t : Int) (c : AudioMothConfig) (b : List Nat)
    (h : encode t c = some b) : b.length = 18 ∧ b.head? = some t.toNat := by
  rw [encode] at h
  simp only [Option.bind_eq_some] at h
  obtain ⟨w0, hw0, w1, hw1, w2, hw2, w3, hw3, w4, hw4, w5, hw5, w6, hw6, w7,
    hw7, w8, hw8, w9, hw9, hfin⟩ := h
  obtain rfl := packB_some _ _ hw0
  obtain rfl := packL_some _ _ hw1
  obtain rfl := packB_some _ _ hw2
  obtain rfl := packB_some _ _ hw3
  obtain rfl := packB_some _ _ hw4
  obtain rfl := packB_some _ _ hw5
  obtain rfl := packL_some _ _ hw6
  obtain rfl := packB_some _ _ hw7
  obtain rfl := packH_some _ _ hw8
  obtain rfl := packH_some _ _ hw9
  obtain rfl : _ = b := (Option.some.injEq _ _ ▸ hfin)
  simp

/-- Counterexample for claim C7: the override `clock_divider = 256` passes
validation, yet the operation performs zero configuration writes instead
of exactly one. -/
theorem set_config_write_count_cex :
    set_config_merge defaultConfig ovCd256
        = Except.ok { defaultConfig with clock_divider := 256 }
    ∧ (set_config_run defaultConfig ovCd256).2 = [] :=
  ⟨rfl, rfl⟩

/-- Claim C7 (amended): when all provided overrides pass validation, the
merged record has every overridden field equal to its override and every
other field (including `time`) equal to the base record's value; and when
that merged record also fits the wire widths (which validation alone does
not guarantee), exactly one 18-byte configuration write with leading tag
0x01 occurs, carrying the merged record. -/
theorem set_config_frame_and_single_write (old : AudioMothConfig)
    (ov : SetOverrides) (m : AudioMothConfig)
    (h : set_config_merge old ov = Except.ok m) :
    (m.time = old.time
      ∧ m.gain = ov.gain.getD old.gain
      ∧ m.clock_divider = ov.clock_divider.getD old.clock_divider
      ∧ m.acquisition_cycles = ov.acquisition_cycles.getD old.acquisition_cycles
      ∧ m.oversamplerate = ov.oversamplerate.getD old.oversamplerate
      ∧ m.samplerate = ov.samplerate.getD old.samplerate
      ∧ m.samplerate_divider = ov.samplerate_divider.getD old.samplerate_divider
      ∧ m.lower_filter_freq = ov.lower_filter_freq.getD old.lower_filter_freq
      ∧ m.higher_filter_freq = ov.higher_filter_freq.getD old.higher_filter_freq)
    ∧ ∀ b, encode ((HID_CONFIGURATION_MESSAGE.headD 0 : Nat) : Int) m = some b →
        set_config_run old ov = (Except.ok m, [b])
        ∧ b.length = 18 ∧ b.head? = some 1 := by
  constructor
  · have hm := merge_ok_val old ov m h
    subst hm
    exact ⟨rfl, rfl, rfl, rfl, rfl, rfl, rfl, rfl, rfl⟩
  · intro b hb
    obtain ⟨hlen, hhead⟩ := encode_some_shape _ _ _ hb
    refine ⟨?_, hlen, ?_⟩
    · simp only [set_config_run, h, hb]
    · rw [hhead]; rfl

/-- Witness for claim C7: the scenario of §8 — base record with
`samplerate = 384000` and `lower_filter_freq = 0`, single override
`gain = 3`: the merged record changes only `gain` and exactly one 18-byte
write with tag 0x01 occurs. -/
theorem set_config_frame_and_single_write_app :
    set_config_run defaultConfig ovG3
        = (Except.ok { defaultConfig with gain := 3 },
            [[1, 0, 0, 0, 0, 3, 4, 16, 1, 0, 220, 5, 0, 1, 0, 0, 0, 0]])
    ∧ ([1, 0, 0, 0, 0, 3, 4, 16, 1, 0, 220, 5, 0, 1, 0, 0, 0, 0] : List Nat).length = 18
    ∧ ([1, 0, 0, 0, 0, 3, 4, 16, 1, 0, 220, 5, 0, 1, 0, 0, 0, 0] : List Nat).head? = some 1 :=
  (set_config_frame_and_single_write defaultConfig ovG3
      { defaultConfig with gain := 3 } rfl).2 _ rfl

/-- Counterexample for claim C8: providing every override `set_config`
accepts, the merged record still carries the base record's `time` — there
is no `time` override, and the CLI `set` subcommand has no `time` flag
among its eight field flags. -/
theorem set_time_not_overridable_cex :
    set_config_merge { defaultConfig with time := 123 } ovAll
        = Except.ok
            { time := 123, gain := 3, clock_divider := 2,
              acquisition_cycles := 8, oversamplerate := 2,
              samplerate := 48000, samplerate_divider := 2,
              lower_filter_freq := 100, higher_filter_freq := 200 }
    ∧ ({ time := 123, gain := 3, clock_divider := 2,
          acquisition_cycles := 8, oversamplerate := 2,
          samplerate := 48000, samplerate_divider := 2,
          lower_filter_freq := 100, higher_filter_freq := 200 } : AudioMothConfig).time
        = 123
    ∧ set_cli_flags.contains ("time") = false
    ∧ set_cli_flags.length = 8 :=
  ⟨rfl, rfl, rfl, rfl⟩

/-- Claim C8 (amended): the set operation accepts an override for each of the
eight non-`time` configuration fields (the fields of `SetOverrides`,
honored per `mergedRecord`), and the CLI offers exactly those eight flags;
`time` has no override and is always carried over from the device's
current record. -/
theorem set_overrides_eight_fields (old : AudioMothConfig) (ov : SetOverrides)
    (m : AudioMothConfig) (h : set_config_merge old ov = Except.ok m) :
    m = mergedRecord old ov
    ∧ m.time = old.time
    ∧ set_cli_flags.length = 8
    ∧ set_cli_flags.contains ("time") = false := by
  have hm := merge_ok_val old ov m h
  exact ⟨hm, by rw [hm]; rfl, rfl, rfl⟩

/-- Witness for claim C8: all eight overrides at once on a base record with
`time = 123`. -/
theorem set_overrides_eight_fields_app :
    ({ time := 123, gain := 3, clock_divider := 2, acquisition_cycles := 8,
        oversamplerate := 2, samplerate := 48000, samplerate_divider := 2,
        lower_filter_freq := 100, higher_filter_freq := 200 } : AudioMothConfig)
        = mergedRecord { defaultConfig with time := 123 } ovAll
    ∧ ({ time := 123, gain := 3, clock_divider := 2, acquisition_cycles := 8,
          oversamplerate := 2, samplerate := 48000, samplerate_divider := 2,
          lower_filter_freq := 100, higher_filter_freq := 200 } : AudioMothConfig).time
        = ({ defaultConfig with time := 123 } : AudioMothConfig).time
    ∧ set_cli_flags.length = 8
    ∧ set_cli_flags.contains ("time") = false :=
  set_overrides_eight_fields { defaultConfig with time := 123 } ovAll _ rfl

/-- Claim C10: passing validation does not guarantee encodability —
`clock_divider = 256` is accepted by the validator (and by the merge), yet
encoding the merged record fails, so `set_config` errors with a
`struct.error` (not a `ValueError`) and still writes nothing; likewise
`lower_filter_freq = -100` is accepted by the validator but fails to
encode. -/
theorem validated_override_encode_failure :
    _validate_parameter ("clock_divider") (PyValue.int 256) 384000 = none
    ∧ set_config_merge defaultConfig ovCd256
        = Except.ok { defaultConfig with clock_divider := 256 }
    ∧ (set_config_run defaultConfig ovCd256).1 = Except.error MothErr.structError
    ∧ MothErr.structError.isValidation = false
    ∧ (set_config_run defaultConfig ovCd256).2 = []
    ∧ _validate_parameter ("lower_filter_freq") (PyValue.int (-100)) 384000 = none
    ∧ encode 1 { defaultConfig with lower_filter_freq := -100 } = none :=
  ⟨rfl, rfl, rfl, rfl, rfl, by decide, rfl⟩

/-- Claim C1 (code bug): with two AudioMoth descriptors of serials `A` and
`B` enumerated in that order, asking for serial `B` returns the descriptor
with serial `A` — `get_audiomoth_device` only checks that a matching
serial exists and then returns `devices[0]` regardless. -/
theorem find_returns_first_despite_serial :
    get_audiomoth_device [devA, devB] (some ("B".toList)) = Except.ok devA
    ∧ (devA.serial_number == "B".toList) = false
    ∧ (devB.serial_number == "B".toList) = true :=
  ⟨rfl, rfl, rfl⟩

/-- Claim C9: on an 18-byte device response, `get_config` raises its
`RuntimeError` exactly when the first byte differs from the READ tag 0x05,
and otherwise returns the configuration decoded from the response. -/
theorem read_config_tag_check
    (b0 b1 b2 b3 b4 b5 b6 b7 b8 b9 b10 b11 b12 b13 b14 b15 b16 b17 : Nat)
    (hb : b0 < 256 ∧ b1 < 256 ∧ b2 < 256 ∧ b3 < 256 ∧ b4 < 256 ∧ b5 < 256
      ∧ b6 < 256 ∧ b7 < 256 ∧ b8 < 256 ∧ b9 < 256 ∧ b10 < 256 ∧ b11 < 256
      ∧ b12 < 256 ∧ b13 < 256 ∧ b14 < 256 ∧ b15 < 256 ∧ b16 < 256 ∧ b17 < 256) :
    (get_config_resp [b0, b1, b2, b3, b4, b5, b6, b7, b8, b9, b10, b11, b12,
        b13, b14, b15, b16, b17] = Except.error MothErr.protocol ↔ ¬ b0 = 5)
    ∧ (b0 = 5 →
        ∃ cfg, decode [b0, b1, b2, b3, b4, b5, b6, b7, b8, b9, b10, b11, b12,
            b13, b14, b15, b16, b17] = some (((5 : Nat) : Int), cfg)
          ∧ get_config_resp [b0, b1, b2, b3, b4, b5, b6, b7, b8, b9, b10, b11,
              b12, b13, b14, b15, b16, b17] = Except.ok cfg) := by
  constructor
  · by_cases h5 : b0 = 5
    · subst h5
      simp [get_config_resp, decode, HID_READ_MESSAGE]
    · simp [get_config_resp, decode, HID_READ_MESSAGE, h5]
      exact_mod_cast h5
  · intro h5
    subst h5
    exact ⟨_, rfl, by simp [get_config_resp, decode, HID_READ_MESSAGE]⟩

/-- Witness for claim C9: a response with leading tag 5 decodes to a
configuration. -/
theorem read_config_tag_check_app :
    ∃ cfg, decode [5, 1, 0, 0, 0, 2, 4, 16, 1, 0, 220, 5, 0, 1, 0, 0, 0, 0]
        = some (((5 : Nat) : Int), cfg)
      ∧ get_config_resp [5, 1, 0, 0, 0, 2, 4, 16, 1, 0, 220, 5, 0, 1, 0, 0, 0, 0]
        = Except.ok cfg :=
  (read_config_tag_check 5 1 0 0 0 2 4 16 1 0 220 5 0 1 0 0 0 0 (by decide)).2 rfl

